import Mathlib

/-!
Formal model of the CwaWeather backend (src/server.js).

The single source file concatenates five near-duplicate historical variants
of the same Express server.  We model the four variants the specification
claims refer to, keeping the source line ranges of src/server.js:

* variant A : lines   1-202 (dynamic period count, dedicated 401 branch,
  empty-string forecast defaults, reserved "current" city);
* variant B : lines 202-298 (manual no-cache/CORS middleware, silent
  substitution of invalid cities, fixed 3-period loop, catch-all 500);
* variant C : lines 298-450 (defensive element map, dynamic Wx length,
  location fallback, updateTime from the first Wx start time);
* variant E : lines 554-748 (strict 400 validation, upstream status
  passthrough in the catch block).

JavaScript conventions used throughout the embedding:

* a field that may be `undefined` is an `Option`;
* `x || y` on strings is `undefined`/empty-string falsy, modelled by
  `jsOrOpt` / `jsGetOr`;
* string coercion of `undefined` in concatenation yields the text
  "undefined", modelled by `jsStr`;
* reading a property of `undefined` throws a TypeError; a body that can
  throw is `Except String`, the carried string being the thrown message
  (TypeErrors are carried as the marker string "TypeError");
* `decodeURIComponent(x)` with `x === undefined` coerces to the string
  "undefined"; the routes hand over already-decoded path segments, so on
  defined strings it is modelled as the identity.
-/

/-- Upstream `parameter` object: `parameterName` / `parameterValue`. -/
structure Param where
  parameterName : Option String
  parameterValue : Option String
deriving DecidableEq

/-- One entry of an element time series: `startTime`, `endTime`, `parameter`. -/
structure TimeEntry where
  startTime : Option String
  endTime : Option String
  parameter : Option Param
deriving DecidableEq

/-- One `weatherElement` record: `elementName` and its `time` array. -/
structure WeatherElement where
  elementName : String
  time : List TimeEntry
deriving DecidableEq

/-- One `location` record of the upstream payload. -/
structure Location where
  locationName : String
  weatherElement : Option (List WeatherElement)
deriving DecidableEq

/-- The `records.resource` object carrying `dataTime`. -/
structure Resource where
  dataTime : Option String
deriving DecidableEq

/-- The `records` object of the upstream payload. -/
structure Records where
  resource : Option Resource
  location : Option (List Location)
deriving DecidableEq

/-- The parsed upstream response body (`response.data`). -/
structure Payload where
  records : Option Records
deriving DecidableEq

/-- The `error.response` object of a failed axios call. -/
structure AxiosResp where
  status : Nat
  dataMessage : Option String
deriving DecidableEq

/-- A failed axios call: optional HTTP response and the axios message. -/
structure AxiosErr where
  response : Option AxiosResp
  message : String
deriving DecidableEq

/-- The fixed allow-list of region names (identical in every variant). -/
def TAIWAN_CITIES : List String :=
  ["臺北市", "新北市", "桃園市", "臺中市", "臺南市", "高雄市",
   "基隆市", "新竹市", "嘉義市",
   "新竹縣", "苗栗縣", "彰化縣", "南投縣", "雲林縣", "嘉義縣",
   "屏東縣", "宜蘭縣", "花蓮縣", "臺東縣", "澎湖縣", "金門縣", "連江縣"]

/-- JS `a || b` on two possibly-undefined strings (empty string is falsy). -/
def jsOrOpt (a b : Option String) : Option String :=
  match a with
  | some s => if s = "" then b else some s
  | none => b

/-- JS `a || b` where the fallback is a definite string. -/
def jsGetOr (a : Option String) (b : String) : String :=
  match a with
  | some s => if s = "" then b else s
  | none => b

/-- JS string coercion used in concatenation: `undefined` prints as "undefined". -/
def jsStr : Option String → String
  | none => "undefined"
  | some s => s

/-- `decodeURIComponent` applied to a possibly-undefined, already-decoded string. -/
def decodeURIComp : Option String → String
  | none => "undefined"
  | some s => s

/-- The element-name switch recognises exactly these five names. -/
def knownElem (name : String) : Bool :=
  name = "Wx" || name = "PoP" || name = "MinT" || name = "MaxT" || name = "CI"

/-- Sequential effectful map, mirroring a for-loop that pushes into an array
and aborts on the first thrown error. -/
def exMapM {ε α β : Type} (f : α → Except ε β) : List α → Except ε (List β)
  | [] => .ok []
  | a :: as =>
    match f a with
    | .error e => .error e
    | .ok b =>
      match exMapM f as with
      | .error e => .error e
      | .ok bs => .ok (b :: bs)

/-- Sequential effectful fold, mirroring `forEach` over the elements where the
callback may throw. -/
def exFoldlM {ε α β : Type} (f : β → α → Except ε β) : β → List α → Except ε β
  | b, [] => .ok b
  | b, a :: as =>
    match f b a with
    | .error e => .error e
    | .ok b2 => exFoldlM f b2 as

/-- The element whose assignment into a name-indexed object wins: the last one
with the given name (`elementMap[elem.elementName] = ...` in a forEach). -/
def lastNamed (es : List WeatherElement) (n : String) : Option WeatherElement :=
  es.reverse.find? (fun e => e.elementName == n)

/-- The time series a name-indexed element map yields for a name
(`elementMap[n] || []`). -/
def elementTimes (es : List WeatherElement) (n : String) : List TimeEntry :=
  match lastNamed es n with
  | some e => e.time
  | none => []

/-- `(e.time[i]).parameter` as one partial lookup. -/
def paramAt (e : WeatherElement) (i : Nat) : Option Param :=
  (e.time[i]?).bind (fun t => t.parameter)

/-! ## Variant B (src/server.js lines 202-298)

Invalid cities are silently replaced by 臺北市, each forecast starts from an
empty object `{}` (a key is only present when the element occurred), the
period loop is the fixed `for (let i = 0; i < 3; i++)`, and every thrown
error becomes `res.status(500).json({error, msg})`. -/

/-- Forecast object of variant B.  It starts as the empty JS object; a `none`
field is a key that was never assigned (omitted from the JSON output). -/
structure ForecastB where
  startTime : Option String := none
  weather : Option String := none
  rain : Option String := none
  minTemp : Option String := none
  maxTemp : Option String := none
  comfort : Option String := none
deriving DecidableEq

/-- The switch body of variant B for a known element name. -/
def applyParamB (name : String) (p : Param) (f : ForecastB) : ForecastB :=
  if name = "Wx" then { f with weather := p.parameterName }
  else if name = "PoP" then { f with rain := some (jsStr p.parameterName ++ "%") }
  else if name = "MinT" then { f with minTemp := p.parameterName }
  else if name = "MaxT" then { f with maxTemp := p.parameterName }
  else if name = "CI" then { f with comfort := p.parameterName }
  else f

/-- One `forEach` step of variant B at period `i`: read
`element.time[i].parameter` (TypeError when the index is missing), assign
`forecast.startTime`, then run the switch (which reads `value.parameterName`
for known names). -/
def applyElemB (i : Nat) (f : ForecastB) (e : WeatherElement) : Except String ForecastB :=
  match e.time[i]? with
  | none => .error "TypeError"
  | some t =>
    let f1 := { f with startTime := t.startTime }
    if knownElem e.elementName then
      match t.parameter with
      | none => .error "TypeError"
      | some p => .ok (applyParamB e.elementName p f1)
    else .ok f1

/-- The fixed three-period loop of variant B. -/
def normalizeB (elems : List WeatherElement) : Except String (List ForecastB) :=
  exMapM (fun i => exFoldlM (applyElemB i) {} elems) (List.range 3)

/-- Success payload of variant B (`weatherData`). -/
structure WeatherDataB where
  city : String
  updateTime : Option String
  forecasts : List ForecastB
deriving DecidableEq

/-- JSON bodies variant B can send. -/
inductive BodyB where
  | okData (data : WeatherDataB)
  | err (error msg : String)
deriving DecidableEq

/-- An HTTP response of variant B. -/
structure RespB where
  status : Nat
  body : BodyB
deriving DecidableEq

/-- The try-block of variant B after the upstream call succeeded. -/
def tryBodyB (name : String) (p : Payload) : Except String RespB :=
  match p.records with
  | none => .error "TypeError"
  | some recs =>
    match recs.location with
    | none => .error "TypeError"
    | some locs =>
      match locs.find? (fun l => l.locationName == name) with
      | none => .error "查無資料"
      | some loc =>
        match recs.resource with
        | none => .error "TypeError"
        | some res =>
          match loc.weatherElement with
          | none => .error "TypeError"
          | some elems =>
            match normalizeB elems with
            | .error m => .error m
            | .ok fs =>
              .ok ⟨200, .okData { city := loc.locationName,
                                  updateTime := res.dataTime, forecasts := fs }⟩

/-- City-name resolution of variant B: empty, "undefined" and unknown names
all silently become 臺北市. -/
def resolveNameB (cityParam : Option String) : String :=
  let ln0 := decodeURIComp cityParam
  let ln1 := if ln0 = "" ∨ ln0 = "undefined" then "臺北市" else ln0
  if ln1 ∈ TAIWAN_CITIES then ln1 else "臺北市"

/-- Variant B handler.  Returns the response and the number of outbound
upstream calls performed. -/
def getCityWeatherB (apiKey : Option String) (cityParam : Option String)
    (upstream : Except AxiosErr Payload) : RespB × Nat :=
  let locationName := resolveNameB cityParam
  match apiKey with
  | none => (⟨500, .err "伺服器錯誤" "API Key 未設定"⟩, 0)
  | some _ =>
    match upstream with
    | .error e => (⟨500, .err "伺服器錯誤" e.message⟩, 1)
    | .ok p =>
      match tryBodyB locationName p with
      | .ok r => (r, 1)
      | .error m => (⟨500, .err "伺服器錯誤" m⟩, 1)

/-! Small facts about the fixed city list. -/

theorem mem_cities_ne_empty {s : String} (h : s ∈ TAIWAN_CITIES) : s ≠ "" := by
  intro he; subst he; revert h; decide

theorem mem_cities_ne_current {s : String} (h : s ∈ TAIWAN_CITIES) : s ≠ "current" := by
  intro he; subst he; revert h; decide

theorem mem_cities_ne_undefined {s : String} (h : s ∈ TAIWAN_CITIES) : s ≠ "undefined" := by
  intro he; subst he; revert h; decide

/-! ## Variant A (src/server.js lines 1-202)

Dynamic period count `weatherElements[0].time.length`, forecasts initialised
with empty-string defaults, start and end times read from the Wx element, a
dedicated 401 branch in the catch block, the reserved literal "current"
replaced by 臺北市 before validation, and a 404 for a missing location. -/

/-- Forecast object of variant A: initialised with the Wx window and
empty-string values for the five weather fields. -/
structure ForecastA where
  startTime : Option String
  endTime : Option String
  weather : Option String
  rain : Option String
  minTemp : Option String
  maxTemp : Option String
  comfort : Option String
deriving DecidableEq

/-- The switch body of variant A for a known element name. -/
def applyParamA (name : String) (p : Param) (f : ForecastA) : ForecastA :=
  if name = "Wx" then { f with weather := p.parameterName }
  else if name = "PoP" then { f with rain := some (jsStr p.parameterName ++ "%") }
  else if name = "MinT" then { f with minTemp := p.parameterName }
  else if name = "MaxT" then { f with maxTemp := p.parameterName }
  else if name = "CI" then { f with comfort := p.parameterName }
  else f

/-- One `forEach` step of variant A at period `i`: read
`element.time[i].parameter` (TypeError when the index is missing), then the
switch reads `value.parameterName` for the five known names. -/
def applyElemA (i : Nat) (f : ForecastA) (e : WeatherElement) : Except String ForecastA :=
  match e.time[i]? with
  | none => .error "TypeError"
  | some t =>
    if knownElem e.elementName then
      match t.parameter with
      | none => .error "TypeError"
      | some p => .ok (applyParamA e.elementName p f)
    else .ok f

/-- Build the forecast of variant A for period `i`: window from the first
element named Wx (TypeError when there is none or its index is missing), then
the element loop. -/
def forecastAtA (elems : List WeatherElement) (i : Nat) : Except String ForecastA :=
  match elems.find? (fun e => e.elementName == "Wx") with
  | none => .error "TypeError"
  | some wx =>
    match wx.time[i]? with
    | none => .error "TypeError"
    | some t =>
      exFoldlM (applyElemA i)
        { startTime := t.startTime, endTime := t.endTime,
          weather := some "", rain := some "", minTemp := some "",
          maxTemp := some "", comfort := some "" } elems

/-- The period loop of variant A: `timeCount = weatherElements[0].time.length`
(TypeError on an empty element list). -/
def normalizeA (elems : List WeatherElement) : Except String (List ForecastA) :=
  match elems with
  | [] => .error "TypeError"
  | e0 :: _ => exMapM (forecastAtA elems) (List.range e0.time.length)

/-- Success payload of variant A (`weatherData`). -/
structure WeatherDataA where
  city : String
  updateTime : Option String
  forecasts : List ForecastA
deriving DecidableEq

/-- JSON bodies variant A can send, one constructor per `res.json` call site. -/
inductive BodyA where
  | badCity (error message : String)
  | configErr (error message : String)
  | noData (error message : String)
  | okData (data : WeatherDataA)
  | authErr (error message : String)
  | genericErr (error message details : String)
deriving DecidableEq

/-- An HTTP response of variant A. -/
structure RespA where
  status : Nat
  body : BodyA
deriving DecidableEq

/-- The try-block of variant A after the upstream call succeeded.  The
`updateTime` is read from `records.resource.dataTime` before the element loop
runs, matching the order of the source. -/
def tryBodyA (name : String) (p : Payload) : Except String RespA :=
  match p.records with
  | none => .error "TypeError"
  | some recs =>
    match recs.location with
    | none => .error "TypeError"
    | some locs =>
      match locs.find? (fun l => l.locationName == name) with
      | none => .ok ⟨404, .noData "查無資料" ("無法取得 " ++ name ++ " 天氣資料")⟩
      | some loc =>
        match recs.resource with
        | none => .error "TypeError"
        | some res =>
          match loc.weatherElement with
          | none => .error "TypeError"
          | some elems =>
            match normalizeA elems with
            | .error m => .error m
            | .ok fs =>
              .ok ⟨200, .okData { city := loc.locationName,
                                  updateTime := res.dataTime, forecasts := fs }⟩

/-- The catch block of variant A: dedicated 401 branch, otherwise a generic
500 carrying the thrown message as `details`. -/
def catchA (e : AxiosErr) : RespA :=
  match e.response with
  | some r =>
    if r.status = 401 then
      ⟨401, .authErr "CWA API 授權錯誤" "請檢查您的 CWA_API_KEY 是否正確或已過期。"⟩
    else ⟨500, .genericErr "伺服器錯誤" "無法取得天氣資料，請稍後再試" e.message⟩
  | none => ⟨500, .genericErr "伺服器錯誤" "無法取得天氣資料，請稍後再試" e.message⟩

/-- City-name resolution of variant A:
`decodeURIComponent(req.params.city || req.query.city)` and the reserved
literal "current" replaced by 臺北市. -/
def resolveNameA (pc qc : Option String) : String :=
  let ln0 := decodeURIComp (jsOrOpt pc qc)
  if ln0 = "current" then "臺北市" else ln0

/-- Variant A handler.  Returns the response and the number of outbound
upstream calls performed. -/
def getCityWeatherA (apiKey : Option String) (pc qc : Option String)
    (upstream : Except AxiosErr Payload) : RespA × Nat :=
  let locationName := resolveNameA pc qc
  if locationName ∈ TAIWAN_CITIES then
    match apiKey with
    | none => (⟨500, .configErr "伺服器設定錯誤" "請在 .env 檔案中設定 CWA_API_KEY"⟩, 0)
    | some _ =>
      match upstream with
      | .error e => (catchA e, 1)
      | .ok p =>
        match tryBodyA locationName p with
        | .ok r => (r, 1)
        | .error m => (catchA ⟨none, m⟩, 1)
  else
    (⟨400, .badCity "輸入錯誤"
        ("無效的縣市名稱: " ++ locationName ++ "。請提供以下其中一個: " ++
          String.intercalate ", " TAIWAN_CITIES)⟩, 0)

/-! ## General lemmas about the embedded operations -/

theorem exMapM_ok_length {ε α β : Type} (f : α → Except ε β) :
    ∀ (l : List α) (ys : List β), exMapM f l = Except.ok ys → ys.length = l.length := by
  intro l
  induction l with
  | nil =>
    intro ys h
    simp only [exMapM] at h
    injection h with h
    subst h; rfl
  | cons a as ih =>
    intro ys h
    simp only [exMapM] at h
    cases hf : f a with
    | error e => rw [hf] at h; exact Except.noConfusion h
    | ok b =>
      rw [hf] at h
      cases hm : exMapM f as with
      | error e => rw [hm] at h; exact Except.noConfusion h
      | ok bs =>
        rw [hm] at h
        injection h with h
        subst h
        simp [ih bs hm]

theorem lastNamed_nil (n : String) : lastNamed [] n = none := rfl

theorem lastNamed_cons (e : WeatherElement) (tl : List WeatherElement) (n : String) :
    lastNamed (e :: tl) n =
      (lastNamed tl n).or (if e.elementName = n then some e else none) := by
  simp only [lastNamed, List.reverse_cons, List.find?_append]
  congr 1
  by_cases h : e.elementName = n
  · have hb : (e.elementName == n) = true := beq_iff_eq.mpr h
    simp [List.find?, hb, h]
  · have hb : (e.elementName == n) = false := beq_eq_false_iff_ne.mpr h
    simp [List.find?, hb, h]

theorem lastNamed_eq_none (es : List WeatherElement) (n : String) :
    lastNamed es n = none ↔ es.find? (fun e => e.elementName == n) = none := by
  simp [lastNamed, List.find?_eq_none, List.mem_reverse]

theorem applyParamA_weather (n : String) (p : Param) (f : ForecastA) :
    (applyParamA n p f).weather = if n = "Wx" then p.parameterName else f.weather := by
  unfold applyParamA; split_ifs <;> simp_all

theorem applyParamA_rain (n : String) (p : Param) (f : ForecastA) :
    (applyParamA n p f).rain =
      if n = "PoP" then some (jsStr p.parameterName ++ "%") else f.rain := by
  unfold applyParamA; split_ifs <;> simp_all

theorem applyParamA_minTemp (n : String) (p : Param) (f : ForecastA) :
    (applyParamA n p f).minTemp = if n = "MinT" then p.parameterName else f.minTemp := by
  unfold applyParamA; split_ifs <;> simp_all

theorem applyParamA_maxTemp (n : String) (p : Param) (f : ForecastA) :
    (applyParamA n p f).maxTemp = if n = "MaxT" then p.parameterName else f.maxTemp := by
  unfold applyParamA; split_ifs <;> simp_all

theorem applyParamA_comfort (n : String) (p : Param) (f : ForecastA) :
    (applyParamA n p f).comfort = if n = "CI" then p.parameterName else f.comfort := by
  unfold applyParamA; split_ifs <;> simp_all

theorem applyElemA_ok {i : Nat} {f0 : ForecastA} {e : WeatherElement} {f1 : ForecastA}
    (h : applyElemA i f0 e = Except.ok f1) :
    ∃ t, e.time[i]? = some t ∧
      ((∃ p, t.parameter = some p ∧ knownElem e.elementName = true ∧
          f1 = applyParamA e.elementName p f0) ∨
       (knownElem e.elementName = false ∧ f1 = f0)) := by
  unfold applyElemA at h
  split at h
  next ht => exact Except.noConfusion h
  next t ht =>
    split at h
    next hk =>
      split at h
      next hp => exact Except.noConfusion h
      next p hp =>
        injection h with h
        exact ⟨t, ht, Or.inl ⟨p, hp, hk, h.symm⟩⟩
    next hk =>
      injection h with h
      exact ⟨t, ht, Or.inr ⟨Bool.not_eq_true _ ▸ hk, h.symm⟩⟩

/-- How one field of the variant A forecast evolves across the element loop:
it keeps its initial value when no element carries the field name, and
otherwise holds the value computed from the last element with that name. -/
theorem exFoldA_field (i : Nat) (n : String) (proj : ForecastA → Option String)
    (mk : Param → Option String)
    (hknown : knownElem n = true)
    (hset : ∀ p f, proj (applyParamA n p f) = mk p)
    (hpres : ∀ m p f, m ≠ n → proj (applyParamA m p f) = proj f) :
    ∀ (es : List WeatherElement) (f0 f : ForecastA),
      exFoldlM (applyElemA i) f0 es = Except.ok f →
      (lastNamed es n = none → proj f = proj f0) ∧
      (∀ e, lastNamed es n = some e →
        ∃ p, paramAt e i = some p ∧ proj f = mk p) := by
  intro es
  induction es with
  | nil =>
    intro f0 f h
    simp only [exFoldlM] at h
    injection h with h
    subst h
    refine ⟨fun _ => rfl, fun e he => ?_⟩
    rw [lastNamed_nil] at he
    exact Option.noConfusion he
  | cons a tl ih =>
    intro f0 f h
    simp only [exFoldlM] at h
    cases ha : applyElemA i f0 a with
    | error e => rw [ha] at h; exact Except.noConfusion h
    | ok f1 =>
      rw [ha] at h
      obtain ⟨hnone, hsome⟩ := ih f1 f h
      obtain ⟨t, ht, hcase⟩ := applyElemA_ok ha
      cases hlt : lastNamed tl n with
      | some x =>
        refine ⟨fun hc => ?_, fun e he => ?_⟩
        · rw [lastNamed_cons, hlt] at hc
          exact Option.noConfusion hc
        · rw [lastNamed_cons, hlt, Option.or_some] at he
          injection he with he
          subst he
          exact hsome x hlt
      | none =>
        have hf1 : proj f = proj f1 := hnone hlt
        by_cases hn : a.elementName = n
        · refine ⟨fun hc => ?_, fun e he => ?_⟩
          · rw [lastNamed_cons, hlt, Option.none_or, if_pos hn] at hc
            exact Option.noConfusion hc
          · rw [lastNamed_cons, hlt, Option.none_or, if_pos hn] at he
            injection he with he
            subst he
            rcases hcase with ⟨p, hp, _, hf1e⟩ | ⟨hunk, _⟩
            · refine ⟨p, ?_, ?_⟩
              · simp [paramAt, ht, hp]
              · rw [hf1, hf1e, hn, hset]
            · rw [hn] at hunk
              rw [hknown] at hunk
              exact Bool.noConfusion hunk
        · refine ⟨fun _ => ?_, fun e he => ?_⟩
          · have hf10 : proj f1 = proj f0 := by
              rcases hcase with ⟨p, _, _, hf1e⟩ | ⟨_, hf1e⟩
              · rw [hf1e, hpres a.elementName p f0 hn]
              · rw [hf1e]
            rw [hf1, hf10]
          · rw [lastNamed_cons, hlt, Option.none_or, if_neg hn] at he
            exact Option.noConfusion he

/-! ### Success-run lemmas -/

theorem resolveNameA_mem (city : String) (q : Option String) (hmem : city ∈ TAIWAN_CITIES) :
    resolveNameA (some city) q = city := by
  have hne := mem_cities_ne_empty hmem
  have hcu := mem_cities_ne_current hmem
  simp [resolveNameA, jsOrOpt, decodeURIComp, hne, hcu]

/-- A fully successful run of the variant A handler. -/
theorem runA_success (k city : String) (p : Payload) (recs : Records)
    (locs : List Location) (loc : Location) (res : Resource)
    (elems : List WeatherElement) (fs : List ForecastA)
    (hmem : city ∈ TAIWAN_CITIES)
    (hrecs : p.records = some recs) (hlocs : recs.location = some locs)
    (hfind : locs.find? (fun l => l.locationName == city) = some loc)
    (hres : recs.resource = some res) (helems : loc.weatherElement = some elems)
    (hnorm : normalizeA elems = Except.ok fs) :
    getCityWeatherA (some k) (some city) none (.ok p) =
      (⟨200, .okData { city := loc.locationName, updateTime := res.dataTime,
                       forecasts := fs }⟩, 1) := by
  simp only [getCityWeatherA, resolveNameA_mem city none hmem]
  rw [if_pos hmem]
  simp only [tryBodyA, hrecs, hlocs, hfind, hres, helems, hnorm]

/-! ### Server-level response headers

Variant A installs only `app.use(cors())` (the cors package default adds the
wildcard allow-origin header); no code path of variant A sets any caching
header.  Variant B installs a manual middleware that sets wildcard CORS and
the no-cache headers on every request before any route runs. -/

/-- Headers added by the cors package with its default configuration,
modelled from its documented behaviour (the dependency is not repo code). -/
def corsLibHeaders : List (String × String) :=
  [("Access-Control-Allow-Origin", "*")]

/-- The headers variant B sets manually on every request (lines 222-233). -/
def manualHeadersB : List (String × String) :=
  [("Access-Control-Allow-Origin", "*"),
   ("Access-Control-Allow-Headers", "Origin, X-Requested-With, Content-Type, Accept"),
   ("Cache-Control", "no-cache, no-store, must-revalidate"),
   ("Pragma", "no-cache"),
   ("Expires", "0")]

/-- An inbound request, by route. -/
inductive Route where
  | root
  | health
  | cities
  | weather (city query : Option String)
  | unknown
deriving DecidableEq

/-- Environment of one request: configured key and upstream behaviour. -/
structure EnvW where
  apiKey : Option String
  upstream : Except AxiosErr Payload

/-- Status and headers of the response the variant A server sends on a route.
All routes only pass through `cors()`; no handler sets further headers. -/
def serveA (env : EnvW) (r : Route) : Nat × List (String × String) :=
  match r with
  | .root => (200, corsLibHeaders)
  | .health => (200, corsLibHeaders)
  | .cities => (200, corsLibHeaders)
  | .weather c q => ((getCityWeatherA env.apiKey c q env.upstream).fst.status, corsLibHeaders)
  | .unknown => (404, corsLibHeaders)

/-- Status and headers of the response the variant B server sends on a route.
The manual middleware runs before every route, including the implicit 404
(variant B has no root JSON route beyond a text response and no health
route, both of which still pass the middleware). -/
def serveB (env : EnvW) (r : Route) : Nat × List (String × String) :=
  match r with
  | .root => (200, manualHeadersB)
  | .health => (404, manualHeadersB)
  | .cities => (200, manualHeadersB)
  | .weather c _ => ((getCityWeatherB env.apiKey c env.upstream).fst.status, manualHeadersB)
  | .unknown => (404, manualHeadersB)

/-! ## Variant C (src/server.js lines 298-450)

The most defensive variant: an element map with `|| []` fallbacks, the period
count is the length of the Wx series, every per-period read is guarded by
`|| {}` / `|| ""`, a missing location falls back to `locations[0]`, and the
update time is the first Wx start time or the current clock. -/

/-- Forecast object of variant C.  A `none` window field is the JSON value
`null` (the source writes `|| null`). -/
structure ForecastC where
  startTime : Option String
  endTime : Option String
  wx : String
  wxValue : String
  rainProb : String
  minTemp : String
  maxTemp : String
  comfort : String
deriving DecidableEq

/-- The empty JS object used by the `|| {}` fallbacks. -/
def emptyTE : TimeEntry := ⟨none, none, none⟩

/-- `t.parameter || {}` then `.parameterName || ""`. -/
def pNameC (t : TimeEntry) : String :=
  jsGetOr ((t.parameter.getD ⟨none, none⟩).parameterName) ""

/-- `t.parameter || {}` then `.parameterValue || ""`. -/
def pValueC (t : TimeEntry) : String :=
  jsGetOr ((t.parameter.getD ⟨none, none⟩).parameterValue) ""

/-- Build the forecast of variant C for period `i`; every lookup is guarded,
so this is total. -/
def forecastAtC (wxL popL minL maxL ciL : List TimeEntry) (i : Nat) : ForecastC :=
  let wx := (wxL[i]?).getD emptyTE
  let pop := (popL[i]?).getD emptyTE
  let minT := (minL[i]?).getD emptyTE
  let maxT := (maxL[i]?).getD emptyTE
  let ci := (ciL[i]?).getD emptyTE
  { startTime := jsOrOpt wx.startTime (jsOrOpt maxT.startTime (jsOrOpt minT.startTime none)),
    endTime := jsOrOpt wx.endTime (jsOrOpt maxT.endTime (jsOrOpt minT.endTime none)),
    wx := pNameC wx, wxValue := pValueC wx,
    rainProb := pNameC pop, minTemp := pNameC minT,
    maxTemp := pNameC maxT, comfort := pNameC ci }

/-- Location selection of variant C:
`locations.find(matching) || locations[0]`. -/
def selectedLocC (p : Payload) (city : String) : Option Location :=
  match p.records with
  | none => none
  | some recs =>
    let locs := recs.location.getD []
    match locs.find? (fun l => l.locationName == city) with
    | some l => some l
    | none => locs[0]?

/-- Success payload of variant C (flat result object). -/
structure ResultC where
  city : String
  updateTime : String
  forecasts : List ForecastC
deriving DecidableEq

/-- JSON bodies variant C can send: the `success:false` envelope with a
message, or the `success:true` result. -/
inductive BodyC where
  | fail (message : String)
  | ok (result : ResultC)
deriving DecidableEq

/-- An HTTP response of variant C. -/
structure RespC where
  status : Nat
  body : BodyC
deriving DecidableEq

/-- The try-block of variant C after the upstream call succeeded.  `now` is
the value `new Date().toISOString()` would produce. -/
def tryBodyC (city now : String) (p : Payload) : Except String RespC :=
  match p.records with
  | none => .error "中央氣象署回傳資料格式不正確"
  | some _ =>
    match selectedLocC p city with
    | none => .error "找不到對應城市的天氣資料"
    | some loc =>
      let elems := loc.weatherElement.getD []
      let wxL := elementTimes elems "Wx"
      let popL := elementTimes elems "PoP"
      let minL := elementTimes elems "MinT"
      let maxL := elementTimes elems "MaxT"
      let ciL := elementTimes elems "CI"
      let forecasts := (List.range wxL.length).map (forecastAtC wxL popL minL maxL ciL)
      let updateTime := jsGetOr ((wxL[0]?).bind (fun t => t.startTime)) now
      .ok ⟨200, .ok { city := loc.locationName, updateTime := updateTime,
                      forecasts := forecasts }⟩

/-- Variant C handler.  Returns the response and the number of outbound
upstream calls performed. -/
def getCityWeatherC (apiKey : Option String) (cityParam : Option String)
    (upstream : Except AxiosErr Payload) (now : String) : RespC × Nat :=
  let city := cityParam.getD ""
  if city = "" then (⟨400, .fail "必須提供城市名稱"⟩, 0)
  else if city ∈ TAIWAN_CITIES then
    match apiKey with
    | none => (⟨500, .fail "伺服器尚未設定 CWA_API_KEY，請聯絡管理員"⟩, 0)
    | some _ =>
      match upstream with
      | .error e => (⟨500, .fail (jsGetOr (some e.message) "伺服器錯誤，請稍後再試")⟩, 1)
      | .ok p =>
        match tryBodyC city now p with
        | .ok r => (r, 1)
        | .error m => (⟨500, .fail (jsGetOr (some m) "伺服器錯誤，請稍後再試")⟩, 1)
  else (⟨400, .fail ("不支援的城市：" ++ city)⟩, 0)

/-- The success result the variant C try-block builds for a selected
location (its own code, factored out for reuse in statements). -/
def resultCOf (loc : Location) (now : String) : ResultC :=
  { city := loc.locationName,
    updateTime := jsGetOr (((elementTimes (loc.weatherElement.getD []) "Wx")[0]?).bind
      (fun t => t.startTime)) now,
    forecasts := (List.range (elementTimes (loc.weatherElement.getD []) "Wx").length).map
      (forecastAtC (elementTimes (loc.weatherElement.getD []) "Wx")
        (elementTimes (loc.weatherElement.getD []) "PoP")
        (elementTimes (loc.weatherElement.getD []) "MinT")
        (elementTimes (loc.weatherElement.getD []) "MaxT")
        (elementTimes (loc.weatherElement.getD []) "CI")) }

/-- A fully successful run of the variant C handler: with `records` present
and a selected location, the response is computed by the defensive
normalizer, whatever the element series look like. -/
theorem runC_success (k city now : String) (p : Payload) (recs : Records) (loc : Location)
    (hmem : city ∈ TAIWAN_CITIES) (hrecs : p.records = some recs)
    (hsel : selectedLocC p city = some loc) :
    getCityWeatherC (some k) (some city) (.ok p) now =
      (⟨200, .ok (resultCOf loc now)⟩, 1) := by
  have hne := mem_cities_ne_empty hmem
  simp only [getCityWeatherC, Option.getD_some]
  rw [if_neg hne, if_pos hmem]
  simp only [tryBodyC, hrecs, hsel, resultCOf]

/-! ## Variant E (src/server.js lines 554-748)

Strict 400 validation, dynamic period count as in variant A, forecasts built
from the empty object (window fields set by every element), and a catch block
that passes the upstream status through. -/

/-- Forecast object of variant E; starts as the empty JS object. -/
structure ForecastE where
  startTime : Option String := none
  endTime : Option String := none
  weather : Option String := none
  rain : Option String := none
  minTemp : Option String := none
  maxTemp : Option String := none
  comfort : Option String := none
deriving DecidableEq

/-- The switch body of variant E for a known element name. -/
def applyParamE (name : String) (p : Param) (f : ForecastE) : ForecastE :=
  if name = "Wx" then { f with weather := p.parameterName }
  else if name = "PoP" then { f with rain := some (jsStr p.parameterName ++ "%") }
  else if name = "MinT" then { f with minTemp := p.parameterName }
  else if name = "MaxT" then { f with maxTemp := p.parameterName }
  else if name = "CI" then { f with comfort := p.parameterName }
  else f

/-- One `forEach` step of variant E at period `i`: read the parameter and the
window (TypeError when the index is missing), assign both window fields, then
run the switch. -/
def applyElemE (i : Nat) (f : ForecastE) (e : WeatherElement) : Except String ForecastE :=
  match e.time[i]? with
  | none => .error "TypeError"
  | some t =>
    let f1 := { f with startTime := t.startTime, endTime := t.endTime }
    if knownElem e.elementName then
      match t.parameter with
      | none => .error "TypeError"
      | some p => .ok (applyParamE e.elementName p f1)
    else .ok f1

/-- The period loop of variant E: dynamic count from the first element. -/
def normalizeE (elems : List WeatherElement) : Except String (List ForecastE) :=
  match elems with
  | [] => .error "TypeError"
  | e0 :: _ =>
    exMapM (fun i => exFoldlM (applyElemE i) {} elems) (List.range e0.time.length)

/-- Success payload of variant E. -/
structure WeatherDataE where
  city : String
  updateTime : Option String
  forecasts : List ForecastE
deriving DecidableEq

/-- JSON bodies variant E can send, one constructor per `res.json` call site
(each error body also carries `success:false` in the source). -/
inductive BodyE where
  | badCity (error message : String)
  | configErr (error message : String)
  | noData (error message : String)
  | okData (data : WeatherDataE)
  | cwaErr (error message : String)
  | genericErr (error message : String)
deriving DecidableEq

/-- An HTTP response of variant E. -/
structure RespE where
  status : Nat
  body : BodyE
deriving DecidableEq

/-- The try-block of variant E after the upstream call succeeded. -/
def tryBodyE (name : String) (p : Payload) : Except String RespE :=
  match p.records with
  | none => .error "TypeError"
  | some recs =>
    match recs.location with
    | none => .error "TypeError"
    | some locs =>
      match locs.find? (fun l => l.locationName == name) with
      | none => .ok ⟨404, .noData "查無資料" ("無法取得 " ++ name ++ " 天氣資料")⟩
      | some loc =>
        match recs.resource with
        | none => .error "TypeError"
        | some res =>
          match loc.weatherElement with
          | none => .error "TypeError"
          | some elems =>
            match normalizeE elems with
            | .error m => .error m
            | .ok fs =>
              .ok ⟨200, .okData { city := loc.locationName,
                                  updateTime := res.dataTime, forecasts := fs }⟩

/-- Variant E handler.  The catch block passes `error.response.status`
through when the upstream answered, otherwise sends the generic 500. -/
def getCityWeatherE (apiKey : Option String) (cityParam : Option String)
    (upstream : Except AxiosErr Payload) : RespE × Nat :=
  let locationName := decodeURIComp cityParam
  if locationName ∈ TAIWAN_CITIES then
    match apiKey with
    | none => (⟨500, .configErr "伺服器設定錯誤" "請在 .env 檔案中設定 CWA_API_KEY"⟩, 0)
    | some _ =>
      match upstream with
      | .error e =>
        (match e.response with
         | some r => (⟨r.status, .cwaErr "CWA API 錯誤" (jsGetOr r.dataMessage "無法取得天氣資料")⟩, 1)
         | none => (⟨500, .genericErr "伺服器錯誤" "無法取得天氣資料，請檢查您的 API 金鑰或後端設定"⟩, 1))
      | .ok p =>
        match tryBodyE locationName p with
        | .ok r => (r, 1)
        | .error _ => (⟨500, .genericErr "伺服器錯誤" "無法取得天氣資料，請檢查您的 API 金鑰或後端設定"⟩, 1)
  else
    (⟨400, .badCity "輸入錯誤"
        ("無效的縣市名稱: " ++ locationName ++ "。請提供以下其中一個: " ++
          String.intercalate ", " TAIWAN_CITIES)⟩, 0)

/-! ## Concrete fixtures -/

/-- A time entry with a window and a named parameter. -/
def teW (s e pn : String) : TimeEntry := ⟨some s, some e, some ⟨some pn, none⟩⟩

/-- A time entry with only a named parameter (window fields undefined). -/
def teP (pn : String) : TimeEntry := ⟨none, none, some ⟨some pn, none⟩⟩

/-- A Wx element with four periods. -/
def wx4 : WeatherElement :=
  ⟨"Wx", [teW "t0" "t1" "晴天", teW "t1" "t2" "陰天", teW "t2" "t3" "雨天", teW "t3" "t4" "多雲"]⟩

/-- A 臺北市 location carrying only the four-period Wx element. -/
def locWx4 : Location := ⟨"臺北市", some [wx4]⟩

def recsWx4 : Records := ⟨some ⟨some "D0"⟩, some [locWx4]⟩

/-- Payload whose Wx reference series has four periods and no other element. -/
def payWx4 : Payload := ⟨some recsWx4⟩

def wxE : WeatherElement := ⟨"Wx", [teW "s0" "e0" "晴", teW "s1" "e1" "陰", teW "s2" "e2" "雨"]⟩
def popE : WeatherElement := ⟨"PoP", [teP "10", teP "20", teP "30"]⟩
def minE : WeatherElement := ⟨"MinT", [teP "15", teP "16", teP "17"]⟩
def maxE : WeatherElement := ⟨"MaxT", [teP "20", teP "21", teP "22"]⟩
def ciE : WeatherElement := ⟨"CI", [teP "舒適", teP "舒適", teP "悶熱"]⟩

/-- A complete three-period element list with all five known elements. -/
def elemsA3 : List WeatherElement := [wxE, popE, minE, maxE, ciE]

def locA3 : Location := ⟨"臺北市", some elemsA3⟩
def recsA3 : Records := ⟨some ⟨some "2024-01-01T00:00:00"⟩, some [locA3]⟩

/-- A complete, well-formed three-period payload for 臺北市. -/
def payA3 : Payload := ⟨some recsA3⟩

/-- The forecasts variant A computes from `elemsA3`. -/
def fA0 : ForecastA := ⟨some "s0", some "e0", some "晴", some "10%", some "15", some "20", some "舒適"⟩
def fA1 : ForecastA := ⟨some "s1", some "e1", some "陰", some "20%", some "16", some "21", some "舒適"⟩
def fA2 : ForecastA := ⟨some "s2", some "e2", some "雨", some "30%", some "17", some "22", some "悶熱"⟩
def fsA3 : List ForecastA := [fA0, fA1, fA2]

/-- A Wx element with two periods, used with a one-period PoP element. -/
def wxG : WeatherElement := ⟨"Wx", [teW "s0" "e0" "晴", teW "s1" "e1" "陰"]⟩
def popG : WeatherElement := ⟨"PoP", [teP "10"]⟩
def recsGap : Records := ⟨some ⟨some "D"⟩, some [⟨"臺北市", some [wxG, popG]⟩]⟩

/-- Structurally complete payload whose element series have unequal lengths. -/
def payGapA : Payload := ⟨some recsGap⟩

/-- Spec-side measurement: number of forecasts in a variant B success body. -/
def forecastsCountB (r : RespB) : Option Nat :=
  match r.body with
  | .okData d => some d.forecasts.length
  | _ => none

/-- Spec-side measurement, following the words of the claim: the time-series
length of the reference element "Wx" of the location record matching the
requested city. -/
def wxSeriesLength (p : Payload) (city : String) : Option Nat :=
  match p.records with
  | none => none
  | some recs =>
    match (recs.location.getD []).find? (fun l => l.locationName == city) with
    | none => none
    | some loc =>
      match lastNamed (loc.weatherElement.getD []) "Wx" with
      | none => none
      | some e => some e.time.length

/-- The first forecast of a variant B success body. -/
def firstForecastB (r : RespB) : Option ForecastB :=
  match r.body with
  | .okData d => d.forecasts[0]?
  | _ => none

/-! ## Claims -/

/-- C1 (counterexample): the fixed three-period handler variant (source line
262) accepts a payload whose Wx reference series has four periods and returns
only three forecast objects, so the number of forecast periods does not equal
the time-series length of the reference element. -/
theorem c1_fixed_three_counterexample :
    (getCityWeatherB (some "k") (some "臺北市") (.ok payWx4)).fst.status = 200 ∧
    forecastsCountB (getCityWeatherB (some "k") (some "臺北市") (.ok payWx4)).fst = some 3 ∧
    wxSeriesLength payWx4 "臺北市" = some 4 ∧ (3 : Nat) ≠ 4 := by
  refine ⟨by decide, by decide, by decide, by decide⟩

/-- C1 (amended): the dynamic-length handlers satisfy the invariant — variant
C returns exactly as many forecasts as the Wx series of the selected
location, and variant A returns as many forecasts as the time series of its
reference element, the first element of the list; the fixed three-period
variant B is excluded. -/
theorem c1_period_count_amended
    (k city now : String) (p : Payload) (recs : Records) (loc : Location)
    (hmem : city ∈ TAIWAN_CITIES) (hrecs : p.records = some recs)
    (hsel : selectedLocC p city = some loc)
    (k2 city2 : String) (p2 : Payload) (recs2 : Records) (locs2 : List Location)
    (loc2 : Location) (res2 : Resource) (e0 : WeatherElement) (tl : List WeatherElement)
    (fs2 : List ForecastA)
    (hmem2 : city2 ∈ TAIWAN_CITIES) (hrecs2 : p2.records = some recs2)
    (hlocs2 : recs2.location = some locs2)
    (hfind2 : locs2.find? (fun l => l.locationName == city2) = some loc2)
    (hres2 : recs2.resource = some res2)
    (helems2 : loc2.weatherElement = some (e0 :: tl))
    (hnorm2 : normalizeA (e0 :: tl) = Except.ok fs2) :
    (∃ d, (getCityWeatherC (some k) (some city) (.ok p) now).fst = ⟨200, .ok d⟩ ∧
        d.forecasts.length = (elementTimes (loc.weatherElement.getD []) "Wx").length) ∧
    ((getCityWeatherA (some k2) (some city2) none (.ok p2)).fst =
        ⟨200, .okData ⟨loc2.locationName, res2.dataTime, fs2⟩⟩ ∧
      fs2.length = e0.time.length) := by
  refine ⟨⟨resultCOf loc now, ?_, ?_⟩, ?_, ?_⟩
  · rw [runC_success k city now p recs loc hmem hrecs hsel]
  · simp [resultCOf]
  · rw [runA_success k2 city2 p2 recs2 locs2 loc2 res2 (e0 :: tl) fs2 hmem2 hrecs2
      hlocs2 hfind2 hres2 helems2 hnorm2]
  · have h := hnorm2
    simp only [normalizeA] at h
    have hlen := exMapM_ok_length (forecastAtA (e0 :: tl)) (List.range e0.time.length) fs2 h
    simpa using hlen

/-- C1 (witness): the amended claim at a concrete four-period payload for
variant C and a concrete three-period payload for variant A. -/
theorem c1_period_count_witness :
    (∃ d, (getCityWeatherC (some "k") (some "臺北市") (.ok payWx4) "NOW").fst = ⟨200, .ok d⟩ ∧
        d.forecasts.length = (elementTimes (locWx4.weatherElement.getD []) "Wx").length) ∧
    ((getCityWeatherA (some "k") (some "臺北市") none (.ok payA3)).fst =
        ⟨200, .okData ⟨"臺北市", some "2024-01-01T00:00:00", fsA3⟩⟩ ∧
      fsA3.length = wxE.time.length) :=
  c1_period_count_amended "k" "臺北市" "NOW" payWx4 recsWx4 locWx4 (by decide) rfl rfl
    "k" "臺北市" payA3 recsA3 [locA3] locA3 ⟨some "2024-01-01T00:00:00"⟩ wxE
    [popE, minE, maxE, ciE] fsA3 (by decide) rfl rfl rfl rfl rfl rfl

/-- C2 (counterexample): the variant A normalizer (lines 93-127) is not total
on unequal-length element series: a structurally complete payload whose PoP
series is shorter than the Wx series makes the handler fail with the caught
TypeError as a generic 500, instead of producing empty values at the missing
index. -/
theorem c2_variantA_unequal_counterexample :
    (getCityWeatherA (some "k") (some "臺北市") none (.ok payGapA)).fst =
      ⟨500, .genericErr "伺服器錯誤" "無法取得天氣資料，請稍後再試" "TypeError"⟩ ∧
    (getCityWeatherA (some "k") (some "臺北市") none (.ok payGapA)).snd = 1 := by
  refine ⟨by decide, by decide⟩

/-- C2 (amended): the defensive variant C normalizer is total — a missing
`records` object is the only normalization failure (surfaced with the
malformed-data message), any payload with a selected location normalizes
successfully whatever the series lengths, and each period index beyond the
end of a shorter element series yields an empty-string field. -/
theorem c2_defensive_total_amended
    (k city now : String) (p : Payload) (recs : Records) (loc : Location)
    (wxL popL minL maxL ciL : List TimeEntry) (i : Nat)
    (hmem : city ∈ TAIWAN_CITIES) (hrecs : p.records = some recs)
    (hsel : selectedLocC p city = some loc) :
    (getCityWeatherC (some k) (some city) (.ok ⟨none⟩) now =
        (⟨500, .fail "中央氣象署回傳資料格式不正確"⟩, 1)) ∧
    (∃ d, getCityWeatherC (some k) (some city) (.ok p) now = (⟨200, .ok d⟩, 1)) ∧
    ((popL.length ≤ i → (forecastAtC wxL popL minL maxL ciL i).rainProb = "") ∧
     (minL.length ≤ i → (forecastAtC wxL popL minL maxL ciL i).minTemp = "") ∧
     (maxL.length ≤ i → (forecastAtC wxL popL minL maxL ciL i).maxTemp = "") ∧
     (ciL.length ≤ i → (forecastAtC wxL popL minL maxL ciL i).comfort = "") ∧
     (wxL.length ≤ i → (forecastAtC wxL popL minL maxL ciL i).wx = "")) := by
  have hne := mem_cities_ne_empty hmem
  refine ⟨?_, ⟨resultCOf loc now, ?_⟩, ?_, ?_, ?_, ?_, ?_⟩
  · simp only [getCityWeatherC, Option.getD_some]
    rw [if_neg hne, if_pos hmem]
    rfl
  · rw [runC_success k city now p recs loc hmem hrecs hsel]
  · intro h
    simp [forecastAtC, List.getElem?_eq_none h, pNameC, emptyTE, jsGetOr]
  · intro h
    simp [forecastAtC, List.getElem?_eq_none h, pNameC, emptyTE, jsGetOr]
  · intro h
    simp [forecastAtC, List.getElem?_eq_none h, pNameC, emptyTE, jsGetOr]
  · intro h
    simp [forecastAtC, List.getElem?_eq_none h, pNameC, emptyTE, jsGetOr]
  · intro h
    simp [forecastAtC, List.getElem?_eq_none h, pNameC, emptyTE, jsGetOr]

/-- C2 (witness): the amended claim at concrete inputs, including the gap
behaviour at index 1 of a one-entry PoP series. -/
theorem c2_defensive_total_witness :
    (getCityWeatherC (some "k") (some "臺北市") (.ok ⟨none⟩) "NOW" =
        (⟨500, .fail "中央氣象署回傳資料格式不正確"⟩, 1)) ∧
    (∃ d, getCityWeatherC (some "k") (some "臺北市") (.ok payWx4) "NOW" = (⟨200, .ok d⟩, 1)) ∧
    ((forecastAtC wx4.time [teP "10"] [] [] [] 1).rainProb = "" ∧
     (forecastAtC wx4.time [teP "10"] [] [] [] 1).minTemp = "") := by
  obtain ⟨h1, h2, h3⟩ :=
    c2_defensive_total_amended "k" "臺北市" "NOW" payWx4 recsWx4 locWx4
      wx4.time [teP "10"] [] [] [] 1 (by decide) rfl rfl
  exact ⟨h1, h2, h3.1 (by decide), h3.2.1 (by decide)⟩

/-- C3 (counterexample): in the fixed three-period variant a forecast starts
as the empty object, so an element absent from the payload leaves its key
unassigned (omitted), not an empty string: on a Wx-only payload the first
forecast has a weather value but no rain value. -/
theorem c3_omitted_key_counterexample :
    (getCityWeatherB (some "k") (some "臺北市") (.ok payWx4)).fst.status = 200 ∧
    ((firstForecastB (getCityWeatherB (some "k") (some "臺北市") (.ok payWx4)).fst).map
        ForecastB.rain) = some none ∧
    ((firstForecastB (getCityWeatherB (some "k") (some "臺北市") (.ok payWx4)).fst).map
        ForecastB.weather) = some (some "晴天") := by
  refine ⟨by decide, by decide, by decide⟩

/-- C3 (amended): in the variant A normalizer the fixed name mapping holds —
the last element named Wx/PoP/MinT/MaxT/CI feeds weather/rain (with "%"
appended)/minTemp/maxTemp/comfort, an element name absent from the payload
leaves the corresponding field the empty string (never an omitted key; the
rain field in particular is always present), while the fixed three-period
variant omits keys of absent elements. -/
theorem c3_field_mapping_amended (elems : List WeatherElement) (i : Nat) (f : ForecastA)
    (h : forecastAtA elems i = Except.ok f) :
    ((lastNamed elems "Wx" = none → f.weather = some "") ∧
     (∀ e, lastNamed elems "Wx" = some e →
        ∃ p, paramAt e i = some p ∧ f.weather = p.parameterName)) ∧
    ((lastNamed elems "PoP" = none → f.rain = some "") ∧
     (∀ e, lastNamed elems "PoP" = some e →
        ∃ p, paramAt e i = some p ∧ f.rain = some (jsStr p.parameterName ++ "%"))) ∧
    ((lastNamed elems "MinT" = none → f.minTemp = some "") ∧
     (∀ e, lastNamed elems "MinT" = some e →
        ∃ p, paramAt e i = some p ∧ f.minTemp = p.parameterName)) ∧
    ((lastNamed elems "MaxT" = none → f.maxTemp = some "") ∧
     (∀ e, lastNamed elems "MaxT" = some e →
        ∃ p, paramAt e i = some p ∧ f.maxTemp = p.parameterName)) ∧
    ((lastNamed elems "CI" = none → f.comfort = some "") ∧
     (∀ e, lastNamed elems "CI" = some e →
        ∃ p, paramAt e i = some p ∧ f.comfort = p.parameterName)) ∧
    f.rain.isSome = true := by
  unfold forecastAtA at h
  split at h
  next => exact Except.noConfusion h
  next wx hfw =>
    split at h
    next => exact Except.noConfusion h
    next t hti =>
      have hwx := exFoldA_field i "Wx" ForecastA.weather (fun p => p.parameterName)
        (by decide) (fun p g => by simp [applyParamA_weather])
        (fun m p g hm => by simp [applyParamA_weather, hm]) elems _ f h
      have hpop := exFoldA_field i "PoP" ForecastA.rain
        (fun p => some (jsStr p.parameterName ++ "%"))
        (by decide) (fun p g => by simp [applyParamA_rain])
        (fun m p g hm => by simp [applyParamA_rain, hm]) elems _ f h
      have hmin := exFoldA_field i "MinT" ForecastA.minTemp (fun p => p.parameterName)
        (by decide) (fun p g => by simp [applyParamA_minTemp])
        (fun m p g hm => by simp [applyParamA_minTemp, hm]) elems _ f h
      have hmax := exFoldA_field i "MaxT" ForecastA.maxTemp (fun p => p.parameterName)
        (by decide) (fun p g => by simp [applyParamA_maxTemp])
        (fun m p g hm => by simp [applyParamA_maxTemp, hm]) elems _ f h
      have hci := exFoldA_field i "CI" ForecastA.comfort (fun p => p.parameterName)
        (by decide) (fun p g => by simp [applyParamA_comfort])
        (fun m p g hm => by simp [applyParamA_comfort, hm]) elems _ f h
      refine ⟨⟨hwx.1, hwx.2⟩, ⟨hpop.1, hpop.2⟩, ⟨hmin.1, hmin.2⟩, ⟨hmax.1, hmax.2⟩,
        ⟨hci.1, hci.2⟩, ?_⟩
      cases hlp : lastNamed elems "PoP" with
      | none => rw [hpop.1 hlp]; rfl
      | some e =>
        obtain ⟨p, _, hr⟩ := hpop.2 e hlp
        rw [hr]; rfl

/-- C3 (witness): the amended mapping applied at a concrete element list:
the PoP parameter named 10 becomes the rain value 10%. -/
theorem c3_field_mapping_witness :
    ∃ p, paramAt popE 0 = some p ∧ fA0.rain = some (jsStr p.parameterName ++ "%") :=
  (c3_field_mapping_amended elemsA3 0 fA0 rfl).2.1.2 popE rfl

/-- The claim property for variant A, rejection side: every request for this
string is answered 400. -/
def rejectsA (s : String) : Prop :=
  ∀ k q u, (getCityWeatherA k (some s) q u).fst.status = 400

/-- The claim property for variant A, substitution side: every request for
this string behaves exactly like a request for the default region. -/
def substitutesA (s : String) : Prop :=
  ∀ k q u, getCityWeatherA k (some s) q u = getCityWeatherA k (some "臺北市") q u

/-- The uniform-policy property claimed of one deployment (variant A): it
either substitutes every string outside the Region set or rejects every
string outside the Region set. -/
def uniformPolicyA : Prop :=
  (∀ s, s ∉ TAIWAN_CITIES → substitutesA s) ∨ (∀ s, s ∉ TAIWAN_CITIES → rejectsA s)

/-- C4 (counterexample): the variant A deployment mixes the two policies: the
out-of-set literal "current" is substituted and proceeds, while the
out-of-set string XYZ is rejected with a 400, so neither uniform policy
holds. -/
theorem c4_mixed_policy_counterexample : ¬ uniformPolicyA := by
  rintro (h | h)
  · have hx := h "XYZ" (by decide) none none (.error ⟨none, "m"⟩)
    exact absurd hx (by decide)
  · have hc := h "current" (by decide) none none (.error ⟨none, "m"⟩)
    exact absurd hc (by decide)

/-- C4 (amended): apart from the reserved literal "current" (substituted with
臺北市 before validation in variant A), each deployment is uniform on strings
outside the Region set: variants A and E reject with a 400 and no upstream
call, while variant B substitutes the default region and behaves exactly as a
臺北市 request. -/
theorem c4_policy_amended (s : String) (hs : s ∉ TAIWAN_CITIES) (hcur : s ≠ "current")
    (k k2 k3 : Option String) (u u2 u3 : Except AxiosErr Payload) :
    ((getCityWeatherA k (some s) none u).fst.status = 400 ∧
     (getCityWeatherA k (some s) none u).snd = 0) ∧
    (getCityWeatherB k2 (some s) u2 = getCityWeatherB k2 (some "臺北市") u2) ∧
    ((getCityWeatherE k3 (some s) u3).fst.status = 400 ∧
     (getCityWeatherE k3 (some s) u3).snd = 0) := by
  have hnameA : resolveNameA (some s) none ∉ TAIWAN_CITIES := by
    by_cases hse : s = ""
    · subst hse; decide
    · simp only [resolveNameA, jsOrOpt, decodeURIComp, if_neg hse, if_neg hcur]
      exact hs
  have hB : resolveNameB (some s) = "臺北市" := by
    by_cases hse : s = ""
    · subst hse; decide
    · by_cases hsu : s = "undefined"
      · subst hsu; decide
      · have hor : ¬(s = "" ∨ s = "undefined") := by
          rintro (h1 | h2)
          exacts [hse h1, hsu h2]
        simp only [resolveNameB, decodeURIComp, if_neg hor, if_neg hs]
  refine ⟨?_, ?_, ?_⟩
  · unfold getCityWeatherA
    rw [if_neg hnameA]
    exact ⟨rfl, rfl⟩
  · unfold getCityWeatherB
    rw [hB]
    rfl
  · unfold getCityWeatherE
    have hd : decodeURIComp (some s) = s := rfl
    rw [hd, if_neg hs]
    exact ⟨rfl, rfl⟩

/-- C4 (witness): the amended uniform behaviours at the concrete out-of-set
string XYZ. -/
theorem c4_policy_witness :
    ((getCityWeatherA none (some "XYZ") none (.error ⟨none, "m"⟩)).fst.status = 400 ∧
     (getCityWeatherA none (some "XYZ") none (.error ⟨none, "m"⟩)).snd = 0) ∧
    (getCityWeatherB none (some "XYZ") (.error ⟨none, "m"⟩) =
      getCityWeatherB none (some "臺北市") (.error ⟨none, "m"⟩)) ∧
    ((getCityWeatherE none (some "XYZ") (.error ⟨none, "m"⟩)).fst.status = 400 ∧
     (getCityWeatherE none (some "XYZ") (.error ⟨none, "m"⟩)).snd = 0) :=
  c4_policy_amended "XYZ" (by decide) (by decide) none none none
    (.error ⟨none, "m"⟩) (.error ⟨none, "m"⟩) (.error ⟨none, "m"⟩)

/-- C5: with no API key configured, each handler variant answers 500 with its
configuration-error body and performs zero upstream calls, for every valid
region and whatever the upstream would have returned. -/
theorem c5_no_key_no_calls (city : String) (hmem : city ∈ TAIWAN_CITIES)
    (q : Option String) (u1 u2 u3 : Except AxiosErr Payload) (now : String) :
    getCityWeatherA none (some city) q u1 =
      (⟨500, .configErr "伺服器設定錯誤" "請在 .env 檔案中設定 CWA_API_KEY"⟩, 0) ∧
    getCityWeatherB none (some city) u2 = (⟨500, .err "伺服器錯誤" "API Key 未設定"⟩, 0) ∧
    getCityWeatherC none (some city) u3 now =
      (⟨500, .fail "伺服器尚未設定 CWA_API_KEY，請聯絡管理員"⟩, 0) := by
  have hne := mem_cities_ne_empty hmem
  refine ⟨?_, rfl, ?_⟩
  · simp only [getCityWeatherA, resolveNameA_mem city q hmem]
    rw [if_pos hmem]
  · simp only [getCityWeatherC, Option.getD_some]
    rw [if_neg hne, if_pos hmem]

/-- C5 (witness): the missing-key behaviour at the concrete region 臺北市. -/
theorem c5_no_key_no_calls_witness :
    getCityWeatherA none (some "臺北市") none (.ok payA3) =
      (⟨500, .configErr "伺服器設定錯誤" "請在 .env 檔案中設定 CWA_API_KEY"⟩, 0) ∧
    getCityWeatherB none (some "臺北市") (.ok payA3) =
      (⟨500, .err "伺服器錯誤" "API Key 未設定"⟩, 0) ∧
    getCityWeatherC none (some "臺北市") (.ok payA3) "NOW" =
      (⟨500, .fail "伺服器尚未設定 CWA_API_KEY，請聯絡管理員"⟩, 0) :=
  c5_no_key_no_calls "臺北市" (by decide) none (.ok payA3) (.ok payA3) (.ok payA3) "NOW"

/-- An upstream 401 as axios reports it. -/
def e401 : AxiosErr := ⟨some ⟨401, some "token invalid"⟩, "Request failed with status code 401"⟩

/-- A generic upstream 500 as axios reports it. -/
def eGen : AxiosErr := ⟨some ⟨500, some "upstream exploded"⟩, "Request failed with status code 500"⟩

/-- The error label a variant B response carries. -/
def errLabelB (r : RespB) : Option String :=
  match r.body with
  | .err e _ => some e
  | _ => none

/-- C6 (counterexample): on an upstream 401 the catch-all variant (lines
280-283) answers HTTP 500 with the same generic error label it uses for any
other upstream failure, so that deployment does not return an
authorization-error response distinguishable from a generic 500. -/
theorem c6_generic500_counterexample :
    (getCityWeatherB (some "k") (some "臺北市") (.error e401)).fst.status = 500 ∧
    errLabelB (getCityWeatherB (some "k") (some "臺北市") (.error e401)).fst =
      errLabelB (getCityWeatherB (some "k") (some "臺北市") (.error eGen)).fst ∧
    errLabelB (getCityWeatherB (some "k") (some "臺北市") (.error e401)).fst =
      some "伺服器錯誤" := by
  refine ⟨by decide, by decide, by decide⟩

/-- C6 (amended): the variants with a dedicated upstream-error branch do
surface a 401 distinguishably: variant A answers 401 with its authorization
error body, and variant E passes the upstream 401 status through with its
CWA error body; the catch-all variants collapse it into the generic 500. -/
theorem c6_auth_distinguishable_amended (k city : String) (dm : Option String) (msg : String)
    (hmem : city ∈ TAIWAN_CITIES) :
    (getCityWeatherA (some k) (some city) none (.error ⟨some ⟨401, dm⟩, msg⟩)).fst =
      ⟨401, .authErr "CWA API 授權錯誤" "請檢查您的 CWA_API_KEY 是否正確或已過期。"⟩ ∧
    (getCityWeatherE (some k) (some city) (.error ⟨some ⟨401, dm⟩, msg⟩)).fst =
      ⟨401, .cwaErr "CWA API 錯誤" (jsGetOr dm "無法取得天氣資料")⟩ ∧
    (401 : Nat) ≠ 500 := by
  refine ⟨?_, ?_, by decide⟩
  · simp only [getCityWeatherA, resolveNameA_mem city none hmem]
    rw [if_pos hmem]
    rfl
  · unfold getCityWeatherE
    have hd : decodeURIComp (some city) = city := rfl
    rw [hd, if_pos hmem]

/-- C6 (witness): the amended behaviour at the concrete region 臺北市. -/
theorem c6_auth_witness :
    (getCityWeatherA (some "k") (some "臺北市") none (.error ⟨some ⟨401, some "x"⟩, "m"⟩)).fst =
      ⟨401, .authErr "CWA API 授權錯誤" "請檢查您的 CWA_API_KEY 是否正確或已過期。"⟩ ∧
    (getCityWeatherE (some "k") (some "臺北市") (.error ⟨some ⟨401, some "x"⟩, "m"⟩)).fst =
      ⟨401, .cwaErr "CWA API 錯誤" (jsGetOr (some "x") "無法取得天氣資料")⟩ ∧
    (401 : Nat) ≠ 500 :=
  c6_auth_distinguishable_amended "k" "臺北市" (some "x") "m" (by decide)

/-- A request environment with nothing configured. -/
def env0 : EnvW := ⟨none, .error ⟨none, "m"⟩⟩

/-- C7 (claim formalized): every response of the variant A server carries a
Cache-Control header and the wildcard CORS allow-origin header. -/
def claimC7A : Prop :=
  ∀ env r, ((serveA env r).snd.lookup "Cache-Control").isSome = true ∧
    (serveA env r).snd.lookup "Access-Control-Allow-Origin" = some "*"

/-- C7 (counterexample): the health response of the variant A server (which
only installs the cors middleware, lines 21-24) carries no Cache-Control
header at all, refuting the claim for that deployment. -/
theorem c7_missing_cache_header_counterexample : ¬ claimC7A := by
  intro h
  exact absurd (h env0 .health).1 (by decide)

/-- C7 (amended): in the variant whose middleware sets the headers manually
(lines 222-233), every response on every route carries the wildcard CORS
allow-origin header and a Cache-Control header whose directives include
no-store. -/
theorem c7_headers_amended (env : EnvW) (r : Route) :
    (serveB env r).snd.lookup "Access-Control-Allow-Origin" = some "*" ∧
    ∃ v, (serveB env r).snd.lookup "Cache-Control" = some v ∧
      ∃ pre post, v = pre ++ "no-store" ++ post := by
  have hsnd : (serveB env r).snd = manualHeadersB := by
    cases r <;> rfl
  rw [hsnd]
  exact ⟨by decide, ⟨"no-cache, no-store, must-revalidate", by decide,
    ⟨"no-cache, ", ", must-revalidate", by decide⟩⟩⟩

/-- A one-period 臺北市 location whose Wx window starts 2024-05-05. -/
def pC8loc : Location :=
  ⟨"臺北市", some [⟨"Wx", [teW "2024-05-05T06:00:00" "2024-05-05T18:00:00" "晴"]⟩]⟩

def pC8recs : Records := ⟨some ⟨some "2099-01-01T00:00:00"⟩, some [pC8loc]⟩

/-- Payload carrying both a resource-level dataTime and a first Wx start. -/
def pC8 : Payload := ⟨some pC8recs⟩

/-- The update time a variant C success body carries. -/
def updateTimeOfC (r : RespC) : Option String :=
  match r.body with
  | .ok d => some d.updateTime
  | _ => none

/-- C8 (counterexample): variant C ignores the resource-level data time even
when it is present: with dataTime 2099-01-01 and first Wx start 2024-05-05,
the returned update time is the Wx start time, not the dataTime. -/
theorem c8_datatime_ignored_counterexample :
    updateTimeOfC (getCityWeatherC (some "k") (some "臺北市") (.ok pC8) "NOW").fst =
      some "2024-05-05T06:00:00" ∧
    (pC8.records.bind Records.resource).bind Resource.dataTime =
      some "2099-01-01T00:00:00" ∧
    some "2024-05-05T06:00:00" ≠ (some "2099-01-01T00:00:00" : Option String) := by
  refine ⟨by decide, by decide, by decide⟩

/-- C8 (amended): variant A takes the update timestamp unconditionally from
the resource-level dataTime of the payload, while variant C never consults
it — its update time is the first Wx period start when present and nonempty,
otherwise the current clock value. -/
theorem c8_update_time_amended
    (k city : String) (p : Payload) (recs : Records) (locs : List Location)
    (loc : Location) (res : Resource) (elems : List WeatherElement) (fs : List ForecastA)
    (hmem : city ∈ TAIWAN_CITIES)
    (hrecs : p.records = some recs) (hlocs : recs.location = some locs)
    (hfind : locs.find? (fun l => l.locationName == city) = some loc)
    (hres : recs.resource = some res) (helems : loc.weatherElement = some elems)
    (hnorm : normalizeA elems = Except.ok fs)
    (k2 city2 now : String) (p2 : Payload) (recs2 : Records) (loc2 : Location)
    (hmem2 : city2 ∈ TAIWAN_CITIES) (hrecs2 : p2.records = some recs2)
    (hsel2 : selectedLocC p2 city2 = some loc2) :
    (getCityWeatherA (some k) (some city) none (.ok p)).fst =
      ⟨200, .okData { city := loc.locationName, updateTime := res.dataTime,
                      forecasts := fs }⟩ ∧
    ((getCityWeatherC (some k2) (some city2) (.ok p2) now).fst =
        ⟨200, .ok (resultCOf loc2 now)⟩ ∧
      (resultCOf loc2 now).updateTime =
        jsGetOr (((elementTimes (loc2.weatherElement.getD []) "Wx")[0]?).bind
          (fun t => t.startTime)) now) := by
  refine ⟨?_, ?_, rfl⟩
  · rw [runA_success k city p recs locs loc res elems fs hmem hrecs hlocs hfind hres
      helems hnorm]
  · rw [runC_success k2 city2 now p2 recs2 loc2 hmem2 hrecs2 hsel2]

/-- C8 (witness): the amended timestamp behaviour at concrete payloads. -/
theorem c8_update_time_witness :
    (getCityWeatherA (some "k") (some "臺北市") none (.ok payA3)).fst =
      ⟨200, .okData { city := "臺北市", updateTime := some "2024-01-01T00:00:00",
                      forecasts := fsA3 }⟩ ∧
    ((getCityWeatherC (some "k") (some "臺北市") (.ok pC8) "NOW").fst =
        ⟨200, .ok (resultCOf pC8loc "NOW")⟩ ∧
      (resultCOf pC8loc "NOW").updateTime =
        jsGetOr (((elementTimes (pC8loc.weatherElement.getD []) "Wx")[0]?).bind
          (fun t => t.startTime)) "NOW") :=
  c8_update_time_amended "k" "臺北市" payA3 recsA3 [locA3] locA3
    ⟨some "2024-01-01T00:00:00"⟩ elemsA3 fsA3 (by decide) rfl rfl rfl rfl rfl rfl
    "k" "臺北市" "NOW" pC8 pC8recs pC8loc (by decide) rfl rfl

/-- A location record for a region other than the one requested. -/
def locKH : Location := ⟨"高雄市", some []⟩

/-- Payload whose only location record does not match the requested region. -/
def payOther : Payload := ⟨some ⟨some ⟨some "D"⟩, some [locKH]⟩⟩

/-- C9: when no location record matches the requested region, variant C falls
back to the first location record, so the lookup succeeds and the returned
city names a different region than the one requested instead of failing with
a not-found error. -/
theorem c9_location_fallback (k city now : String) (p : Payload) (recs : Records)
    (l0 : Location) (rest : List Location)
    (hmem : city ∈ TAIWAN_CITIES) (hrecs : p.records = some recs)
    (hlocs : recs.location.getD [] = l0 :: rest)
    (hnone : (l0 :: rest).find? (fun l => l.locationName == city) = none) :
    ∃ d, (getCityWeatherC (some k) (some city) (.ok p) now).fst = ⟨200, BodyC.ok d⟩ ∧
      d.city = l0.locationName ∧ l0.locationName ≠ city := by
  have hsel : selectedLocC p city = some l0 := by
    simp only [selectedLocC, hrecs, hlocs, hnone]
    simp
  refine ⟨resultCOf l0 now, ?_, rfl, ?_⟩
  · rw [runC_success k city now p recs l0 hmem hrecs hsel]
  · have hh := List.find?_eq_none.mp hnone l0 (by simp)
    simpa using hh

/-- C9 (witness): the fallback at a concrete payload carrying only a 高雄市
record while 臺北市 was requested. -/
theorem c9_location_fallback_witness :
    ∃ d, (getCityWeatherC (some "k") (some "臺北市") (.ok payOther) "NOW").fst =
        ⟨200, BodyC.ok d⟩ ∧ d.city = locKH.locationName ∧ locKH.locationName ≠ "臺北市" :=
  c9_location_fallback "k" "臺北市" "NOW" payOther ⟨some ⟨some "D"⟩, some [locKH]⟩ locKH []
    (by decide) rfl rfl (by decide)

/-- A successful try-block of variant A never produces the invalid-city body. -/
theorem tryBodyA_not_badCity (name : String) (p : Payload) (r : RespA)
    (h : tryBodyA name p = Except.ok r) : ∀ e m, r.body ≠ BodyA.badCity e m := by
  unfold tryBodyA at h
  repeat' split at h
  all_goals
    first
      | exact Except.noConfusion h
      | (injection h with h; subst h; intro e m hbad; exact BodyA.noConfusion hbad)

/-- The catch block of variant A never produces the invalid-city body. -/
theorem catchA_not_badCity (err : AxiosErr) (a b : String) :
    (catchA err).body ≠ BodyA.badCity a b := by
  unfold catchA
  cases hr : err.response with
  | none => intro hbad; exact BodyA.noConfusion hbad
  | some rr =>
    split
    all_goals try split
    all_goals (intro hbad; exact BodyA.noConfusion hbad)

/-- Once the city name validates, variant A never answers with the
invalid-city body. -/
theorem getCityWeatherA_not_badCity (k : Option String) (pc qc : Option String)
    (u : Except AxiosErr Payload) (hmem : resolveNameA pc qc ∈ TAIWAN_CITIES)
    (a b : String) : (getCityWeatherA k pc qc u).fst.body ≠ BodyA.badCity a b := by
  unfold getCityWeatherA
  rw [if_pos hmem]
  split
  · intro hbad; exact BodyA.noConfusion hbad
  · split
    next e => exact catchA_not_badCity e a b
    next p =>
      split
      next r htry => exact tryBodyA_not_badCity _ p r htry a b
      next m htry => exact catchA_not_badCity _ a b

/-- C10: the raw path parameter "current" is replaced by 臺北市 before
membership validation in variant A, so the request behaves exactly like a
臺北市 lookup and is never rejected as an invalid city. -/
theorem c10_current_substitution (k : Option String) (q : Option String)
    (u : Except AxiosErr Payload) :
    getCityWeatherA k (some "current") q u = getCityWeatherA k (some "臺北市") q u ∧
    ∀ e m, (getCityWeatherA k (some "current") q u).fst.body ≠ BodyA.badCity e m := by
  have hres : resolveNameA (some "current") q = "臺北市" := rfl
  have hres2 : resolveNameA (some "臺北市") q = "臺北市" := rfl
  constructor
  · unfold getCityWeatherA
    rw [hres, hres2]
  · intro e m
    exact getCityWeatherA_not_badCity k (some "current") q u
      (by rw [hres]; decide) e m

/-- C10 (witness): the substitution at one concrete environment. -/
theorem c10_current_witness :
    getCityWeatherA none (some "current") none (.error ⟨none, "m"⟩) =
      getCityWeatherA none (some "臺北市") none (.error ⟨none, "m"⟩) ∧
    (getCityWeatherA none (some "current") none (.error ⟨none, "m"⟩)).fst.body ≠
      BodyA.badCity "輸入錯誤" "x" :=
  ⟨(c10_current_substitution none none (.error ⟨none, "m"⟩)).1,
   (c10_current_substitution none none (.error ⟨none, "m"⟩)).2 "輸入錯誤" "x"⟩
